import Mathlib

/-!
Verification development for the kimi-secrets-vault repository.

The Python sources are embedded shallowly: every external effect
(subprocess invocations, the token-endpoint network call, the file
system, environment variables) is represented by an explicit oracle
argument describing its outcome, and each Python function becomes a
pure Lean function from its state and oracles to its result, its
successor state, and counters for the effects it performed.  Raised
exceptions are represented with `Except`.
-/

namespace KimiVault

/-! ## String helpers (Python `in`, `startswith`, `lower`, `strip`, `split`) -/

/-- Boolean test that the first character list occurs at the head of the
second (Python `str.startswith`). -/
def charsStartWith : List Char → List Char → Bool
  | [], _ => true
  | _ :: _, [] => false
  | p :: ps, c :: cs => p == c && charsStartWith ps cs

/-- Boolean substring occurrence test on character lists (Python `in`). -/
def charsContain (pat : List Char) : List Char → Bool
  | [] => pat.isEmpty
  | c :: cs => charsStartWith pat (c :: cs) || charsContain pat cs

/-- Python `pat in s` on strings. -/
def containsSubstr (s pat : String) : Bool :=
  charsContain pat.toList s.toList

/-- Python whitespace class used by `str.strip` (space, tab, newline,
carriage return, vertical tab, form feed). -/
def isPySpace (c : Char) : Bool :=
  c == ' ' || c == '\t' || c == '\n' || c == '\r' ||
  c == Char.ofNat 11 || c == Char.ofNat 12

/-- Python `str.strip` on character lists. -/
def stripChars (l : List Char) : List Char :=
  ((l.dropWhile isPySpace).reverse.dropWhile isPySpace).reverse

/-- Python `str.strip` on strings. -/
def stripString (s : String) : String :=
  String.mk (stripChars s.toList)

/-- Python `str.split(sep)` for a one-character separator, on character
lists.  `[] ↦ [[]]` mirrors `"".split(sep) == [""]`. -/
def splitOnChar (sep : Char) : List Char → List (List Char)
  | [] => [[]]
  | c :: cs =>
    let r := splitOnChar sep cs
    if c == sep then [] :: r
    else
      match r with
      | [] => [[c]]
      | l :: ls => (c :: l) :: ls

/-- The lines of a string, as in Python `s.split("\n")`. -/
def splitLinesChars (l : List Char) : List (List Char) :=
  splitOnChar '\n' l

/-- Python `s.lower()` on character lists. -/
def lowerChars (l : List Char) : List Char :=
  l.map Char.toLower

/-! ## EnvironmentProbe: `is_wsl2` (src/src/nakimi/core/yubikey.py, lines 32-60) -/

/-- The host signals consulted by `is_wsl2`.  `none` in `procVersion`
models `FileNotFoundError`/`PermissionError` when opening
`/proc/version`; `none` in `unameRelease` models
`subprocess.SubprocessError`/`FileNotFoundError` from `uname -r`;
`wslDistroName` is `os.environ.get("WSL_DISTRO_NAME")` (an empty string
is falsy in Python). -/
structure HostSignals where
  procVersion : Option String
  unameRelease : Option String
  wslDistroName : Option String
deriving DecidableEq, Repr

/-- `"microsoft" in s.lower()`. -/
def hasMicrosoft (s : String) : Bool :=
  charsContain "microsoft".toList (lowerChars s.toList)

/-- `is_wsl2` from yubikey.py: method 1 reads `/proc/version`, method 2
runs `uname -r`, method 3 tests the `WSL_DISTRO_NAME` environment
variable; the first matching signal returns `true`. -/
def is_wsl2 (h : HostSignals) : Bool :=
  if (match h.procVersion with
      | some content => hasMicrosoft content
      | none => false) then true
  else if (match h.unameRelease with
      | some out => hasMicrosoft out
      | none => false) then true
  else if (match h.wslDistroName with
      | some s => s != ""
      | none => false) then true
  else false

/-! ## TokenGuard: GmailClient (src/src/kimi_vault/client.py) -/

/-- The fields of `google.oauth2.credentials.Credentials` that
`_ensure_valid_token` consults: the `valid` flag and the optional
`expiry` timestamp (seconds since the epoch). -/
structure Creds where
  valid : Bool
  expiry : Option Int
deriving DecidableEq, Repr

/-- The mutable guard state of a `GmailClient`: `self.creds` and the
sticky `self._auth_error`. -/
structure GuardState where
  creds : Option Creds
  authError : Option String
deriving DecidableEq, Repr

/-- Exceptions that flow through the guard: `GmailAuthError`,
`googleapiclient.errors.HttpError` (identified by its response status),
and any other exception (identified by its `str`). -/
inductive Exc
  | gmailAuth (msg : String)
  | http (status : Nat)
  | other (msg : String)
deriving DecidableEq, Repr

/-- `str(e)` for a raised exception. -/
def excMsg : Exc → String
  | .gmailAuth m => m
  | .http s => "HTTP " ++ toString s
  | .other m => m

/-- Oracle for one `self.creds.refresh(Request())` network call: it
either succeeds or raises an exception whose `str` is `msg`. -/
inductive RefreshOutcome
  | ok
  | err (msg : String)
deriving DecidableEq, Repr

/-- The message `_refresh_token` uses for a revoked refresh token. -/
def revokedMsg : String :=
  "Refresh token expired or revoked. Need to re-authorize with Gmail."

/-- Result of running `_refresh_token`: the raised-or-returned outcome,
the successor guard state, and the number of `creds.refresh` network
calls performed. -/
structure RefreshRun where
  result : Except Exc Unit
  state : GuardState
  calls : Nat
deriving Repr

/-- `GmailClient._refresh_token` (client.py, lines 140-155).  With no
credentials it raises `GmailAuthError`; otherwise it performs one
`creds.refresh` call, clears the sticky `_auth_error` on success, maps a
failure mentioning `invalid_grant` to a `GmailAuthError`, and re-raises
any other failure unchanged. -/
def refreshToken (st : GuardState) (o : RefreshOutcome) : RefreshRun :=
  match st.creds with
  | none => ⟨.error (.gmailAuth "No credentials available to refresh"), st, 0⟩
  | some _ =>
    match o with
    | .ok => ⟨.ok (), { st with authError := none }, 1⟩
    | .err msg =>
      if containsSubstr msg "invalid_grant" then
        ⟨.error (.gmailAuth revokedMsg), st, 1⟩
      else
        ⟨.error (.other msg), st, 1⟩

/-- Result of running `_ensure_valid_token`. -/
structure TokenCheck where
  result : Except Exc Unit
  state : GuardState
  calls : Nat
deriving Repr

/-- `GmailClient._ensure_valid_token` (client.py, lines 119-138).
`now` is `datetime.utcnow()` in epoch seconds; an absent expiry counts
as zero seconds remaining; a refresh is forced when the credential is
invalid or fewer than 300 seconds remain, and any refresh failure is
recorded as the sticky `_auth_error` and re-raised as
`GmailAuthError`. -/
def ensureValidToken (st : GuardState) (now : Int) (o : RefreshOutcome) : TokenCheck :=
  match st.creds with
  | none =>
    match st.authError with
    | some e => ⟨.error (.gmailAuth e), st, 0⟩
    | none => ⟨.ok (), st, 0⟩
  | some c =>
    let expiresIn : Int :=
      match c.expiry with
      | some t => t - now
      | none => 0
    if !c.valid || expiresIn < 300 then
      let r := refreshToken st o
      match r.result with
      | .ok _ => ⟨.ok (), r.state, r.calls⟩
      | .error e =>
        let errorMsg := "Token refresh failed: " ++ excMsg e
        ⟨.error (.gmailAuth errorMsg), { r.state with authError := some errorMsg }, r.calls⟩
    else
      ⟨.ok (), st, 0⟩

/-- Outcome oracle for one invocation of the wrapped `api_call`. -/
inductive CallOutcome
  | ok (v : Nat)
  | raises (e : Exc)
deriving DecidableEq, Repr

/-- The sticky message `_handle_api_error` records for a 401. -/
def authExpiredMsg : String :=
  "Authentication expired. Token refresh failed."

/-- `GmailClient._handle_api_error` (client.py, lines 201-219): always
returns `None`; additionally records the sticky `_auth_error` when the
error carries HTTP status 401. -/
def handleApiError (st : GuardState) (e : Exc) : Option Nat × GuardState :=
  match e with
  | .http 401 => (none, { st with authError := some authExpiredMsg })
  | _ => (none, st)

/-- Result of running `_execute_with_retry`: the value returned
(`Except.ok none` is Python `None`), the successor state, the number of
`api_call` invocations, and the number of `creds.refresh` calls. -/
structure ExecRun where
  result : Except Exc (Option Nat)
  state : GuardState
  apiCalls : Nat
  refreshCalls : Nat
deriving Repr

/-- `GmailClient._execute_with_retry` (client.py, lines 184-199).
`first` and `second` are the outcomes of the at-most-two `api_call`
invocations and `o` is the outcome of the at-most-one forced refresh.
On a first-attempt `HttpError` with status 401 it forces a refresh and
retries once; only a `GmailAuthError` from that inner block is caught
(yielding `None`) — any other exception raised there propagates.  All
other first-attempt failures go to `_handle_api_error`, which returns
`None`. -/
def executeWithRetry (st : GuardState) (first second : CallOutcome)
    (o : RefreshOutcome) : ExecRun :=
  match first with
  | .ok v => ⟨.ok (some v), st, 1, 0⟩
  | .raises e =>
    match e with
    | .http s =>
      if s = 401 then
        let r := refreshToken st o
        match r.result with
        | .ok _ =>
          match second with
          | .ok v => ⟨.ok (some v), r.state, 2, r.calls⟩
          | .raises (.gmailAuth _) => ⟨.ok none, r.state, 2, r.calls⟩
          | .raises e2 => ⟨.error e2, r.state, 2, r.calls⟩
        | .error (.gmailAuth _) => ⟨.ok none, r.state, 1, r.calls⟩
        | .error e2 => ⟨.error e2, r.state, 1, r.calls⟩
      else
        let p := handleApiError st (.http s)
        ⟨.ok p.1, p.2, 1, 0⟩
    | _ =>
      let p := handleApiError st e
      ⟨.ok p.1, p.2, 1, 0⟩

/-! ## ToolAvailability: YubiKeyManager detection
(src/src/nakimi/core/yubikey.py, lines 69-170) -/

/-- The memoization fields of a `YubiKeyManager`:
`self._ykman_available` and `self._yubikey_present`. -/
structure MgrState where
  ykmanAvailable : Option Bool
  yubikeyPresent : Option Bool
deriving DecidableEq, Repr

/-- Oracles for the external probes a detection call may perform.
`ykmanOnPath` is the outcome of `ykman --version` (false covers both
`CalledProcessError` and `FileNotFoundError`); `ykmanInfo` is the
outcome of `ykman info` (`error stderr` is a `CalledProcessError` whose
`e.stderr or ""` is `stderr`); `exeVersionOk` and `linuxVersionOk` are
the outcomes of `age-plugin-yubikey.exe --version` and
`age-plugin-yubikey --version`; `host` feeds `is_wsl2`. -/
structure ProbeWorld where
  host : HostSignals
  ykmanOnPath : Bool
  ykmanInfo : Except String Unit
  exeVersionOk : Bool
  linuxVersionOk : Bool

/-- `YubiKeyManager._check_ykman_installed` (yubikey.py, lines 77-90):
memoized probe for the ykman CLI. -/
def checkYkmanInstalled (st : MgrState) (w : ProbeWorld) : Bool × MgrState :=
  match st.ykmanAvailable with
  | some b => (b, st)
  | none => (w.ykmanOnPath, { st with ykmanAvailable := some w.ykmanOnPath })

/-- `YubiKeyManager._check_yubikey_present_wsl2` (yubikey.py, lines
129-155): tries `age-plugin-yubikey.exe --version` first, then
`age-plugin-yubikey --version`; any success counts as presence. -/
def checkYubikeyPresentWsl2 (w : ProbeWorld) : Bool :=
  if w.exeVersionOk then true
  else if w.linuxVersionOk then true
  else false

/-- `YubiKeyManager._check_age_plugin_installed` (yubikey.py, lines
157-170): tries `age-plugin-yubikey --version`, then the `.exe`
build. -/
def checkAgePluginInstalled (w : ProbeWorld) : Bool :=
  if w.linuxVersionOk then true
  else if w.exeVersionOk then true
  else false

/-- The WSL2-specific signatures `_check_yubikey_present` looks for in
`ykman info` stderr. -/
def pcscSignature (stderr : String) : Bool :=
  containsSubstr stderr "PC/SC not available" ||
  containsSubstr stderr "Smart card (CCID) protocols"

/-- `YubiKeyManager._check_yubikey_present` (yubikey.py, lines 92-127).
Returns the cached answer when `self._yubikey_present` is set;
otherwise runs the detection ladder and caches the result on every
path. -/
def checkYubikeyPresent (st : MgrState) (w : ProbeWorld) : Bool × MgrState :=
  match st.yubikeyPresent with
  | some b => (b, st)
  | none =>
    let yk := checkYkmanInstalled st w
    let st1 := yk.2
    if yk.1 then
      match w.ykmanInfo with
      | .ok _ => (true, { st1 with yubikeyPresent := some true })
      | .error stderr =>
        if is_wsl2 w.host && pcscSignature stderr then
          if checkYubikeyPresentWsl2 w then
            (true, { st1 with yubikeyPresent := some true })
          else
            (false, { st1 with yubikeyPresent := some false })
        else
          (false, { st1 with yubikeyPresent := some false })
    else
      if is_wsl2 w.host && checkAgePluginInstalled w then
        if checkYubikeyPresentWsl2 w then
          (true, { st1 with yubikeyPresent := some true })
        else
          (false, { st1 with yubikeyPresent := some false })
      else
        (false, { st1 with yubikeyPresent := some false })

/-- A freshly constructed `YubiKeyManager` (both caches empty). -/
def freshMgr : MgrState :=
  { ykmanAvailable := none, yubikeyPresent := none }

/-! ## KeyEncryptionLayer: plugin invocation and decrypt
(src/src/nakimi/core/yubikey.py, lines 172-251 and 466-511) -/

/-- Exceptions in the yubikey module: `YubiKeyError` and any other
exception. -/
inductive YkExc
  | yubikey (msg : String)
  | other (msg : String)
deriving DecidableEq, Repr

/-- The two builds of the age-plugin-yubikey executable. -/
inductive PluginBin
  | linuxBin
  | exeBin
deriving DecidableEq, Repr

/-- The command name of each build. -/
def binName : PluginBin → String
  | .linuxBin => "age-plugin-yubikey"
  | .exeBin => "age-plugin-yubikey.exe"

/-- The candidate order used by `_get_yubikey_recipient` and
`_get_yubikey_identity`: in WSL2 the `.exe` build is prioritized,
otherwise the Linux build comes first. -/
def pluginOrder (wsl2 : Bool) : List PluginBin :=
  if wsl2 then [.exeBin, .linuxBin] else [.linuxBin, .exeBin]

/-- Outcome oracle for one plugin subprocess invocation:
success with the given stdout, `FileNotFoundError`, or
`CalledProcessError` with the given stderr. -/
inductive RunOutcome
  | ok (stdout : String)
  | notFound
  | callFailed (stderr : String)
deriving DecidableEq, Repr

/-- First line of `stdout.split("\n")` starting with `age1yubikey1`,
stripped — the recipient-parsing loop of `_get_yubikey_recipient`. -/
def findRecipientLine : List (List Char) → Option (List Char)
  | [] => none
  | l :: rest =>
    if charsStartWith "age1yubikey1".toList l then some (stripChars l)
    else findRecipientLine rest

/-- The recipient extracted from plugin stdout, if any. -/
def findRecipient (stdout : String) : Option String :=
  (findRecipientLine (splitLinesChars stdout.toList)).map String.mk

/-- The not-installed message raised when neither build is found. -/
def pluginMissingMsg : String :=
  "age-plugin-yubikey not found. Install it from https://github.com/str4d/age-plugin-yubikey"

/-- The candidate loop of `_get_yubikey_recipient` (yubikey.py, lines
186-212), carrying `last_error`s stderr.  `FileNotFoundError` always
falls through to the next candidate; `CalledProcessError` falls through
only in WSL2 and otherwise raises immediately; a successful run without
a matching recipient line raises. -/
def recipientLoop (wsl2 : Bool) (run : PluginBin → RunOutcome) :
    List PluginBin → Option String → Except YkExc String
  | [], lastError =>
    match lastError with
    | some stderr =>
      if wsl2 then .error (.yubikey ("Failed to get recipient: " ++ stderr))
      else .error (.yubikey pluginMissingMsg)
    | none => .error (.yubikey pluginMissingMsg)
  | b :: rest, lastError =>
    match run b with
    | .ok stdout =>
      match findRecipient stdout with
      | some line => .ok line
      | none => .error (.yubikey ("No recipient found in " ++ binName b ++ " output"))
    | .notFound => recipientLoop wsl2 run rest lastError
    | .callFailed stderr =>
      if wsl2 then recipientLoop wsl2 run rest (some stderr)
      else .error (.yubikey ("Failed to get recipient with " ++ binName b ++ ": " ++ stderr))

/-- `YubiKeyManager._get_yubikey_recipient` (yubikey.py, lines
172-212), with the subprocess outcomes supplied by `run`. -/
def getYubikeyRecipient (wsl2 : Bool) (run : PluginBin → RunOutcome) :
    Except YkExc String :=
  recipientLoop wsl2 run (pluginOrder wsl2) none

/-- The candidate loop of `_get_yubikey_identity` (yubikey.py, lines
229-251): like the recipient loop, but a successful run returns the
stripped stdout. -/
def identityLoop (wsl2 : Bool) (run : PluginBin → RunOutcome) :
    List PluginBin → Option String → Except YkExc String
  | [], lastError =>
    match lastError with
    | some stderr =>
      if wsl2 then .error (.yubikey ("Failed to get identity: " ++ stderr))
      else .error (.yubikey pluginMissingMsg)
    | none => .error (.yubikey pluginMissingMsg)
  | b :: rest, lastError =>
    match run b with
    | .ok stdout => .ok (stripString stdout)
    | .notFound => identityLoop wsl2 run rest lastError
    | .callFailed stderr =>
      if wsl2 then identityLoop wsl2 run rest (some stderr)
      else .error (.yubikey ("Failed to get identity with " ++ binName b ++ ": " ++ stderr))

/-- `YubiKeyManager._get_yubikey_identity` (yubikey.py, lines
214-251). -/
def getYubikeyIdentity (wsl2 : Bool) (run : PluginBin → RunOutcome) :
    Except YkExc String :=
  identityLoop wsl2 run (pluginOrder wsl2) none

/-! ### `decrypt_age_key` (yubikey.py, lines 466-511) -/

/-- The set of files on disk, as a list of path names. -/
structure FsState where
  files : List String
deriving DecidableEq, Repr

/-- `tempfile.NamedTemporaryFile(delete=False)`: the named file now
exists. -/
def createFile (fs : FsState) (name : String) : FsState :=
  { files := name :: fs.files }

/-- `os.unlink` wrapped in `except OSError: pass`: the file is removed
when present, and a missing file is ignored. -/
def unlinkFile (fs : FsState) (name : String) : FsState :=
  { files := fs.files.filter (fun n => n != name) }

/-- Outcome oracle for `_get_yubikey_identity` as seen by
`decrypt_age_key`: the identity string, or a raised `YubiKeyError`. -/
inductive IdentityOutcome
  | ok (identity : String)
  | err (msg : String)
deriving DecidableEq, Repr

/-- Outcome oracle for the `age -d -i <identity_file>` subprocess in
`decrypt_age_key`: decoded plaintext on exit 0, `CalledProcessError`
with the given stderr on non-zero exit, or any other exception raised
inside the `try` block. -/
inductive DecryptOutcome
  | ok (plaintext : String)
  | fail (stderr : String)
  | unexpected (msg : String)
deriving DecidableEq, Repr

/-- `YubiKeyManager.decrypt_age_key` (yubikey.py, lines 466-511).
After the plugin-installed check and the identity lookup, the identity
is written to the transient file `tmpName`; the `try`/`finally` around
the decrypt invocation unlinks that file on success, on
`CalledProcessError`, and on any unexpected exception. -/
def decryptAgeKey (fs : FsState) (pluginInstalled : Bool)
    (ido : IdentityOutcome) (tmpName : String) (dec : DecryptOutcome) :
    Except YkExc String × FsState :=
  if !pluginInstalled then
    (.error (.yubikey ("age-plugin-yubikey not installed. " ++
      "Install it from https://github.com/str4d/age-plugin-yubikey")), fs)
  else
    match ido with
    | .err msg => (.error (.yubikey msg), fs)
    | .ok _ =>
      let fs1 := createFile fs tmpName
      match dec with
      | .ok plaintext => (.ok plaintext, unlinkFile fs1 tmpName)
      | .fail stderr =>
        (.error (.yubikey ("Age decryption failed: " ++ stderr)), unlinkFile fs1 tmpName)
      | .unexpected msg => (.error (.other msg), unlinkFile fs1 tmpName)

/-! ## Secrets-file resolution
(src/src/kimi_vault/client.py, lines 74-94) -/

/-- The environment consulted by `_resolve_secrets_file`: the two
override variables (`os.environ.get`, so `none` is unset and an empty
string is set-but-falsy) and the set of paths that exist on disk. -/
structure SecretsEnv where
  kimiVaultSecrets : Option String
  kimiBotSecrets : Option String
  existing : List String

/-- The error message raised when no usable secrets path is found. -/
def noSecretsFileMsg : String :=
  "No secrets file provided. Either: 1. Pass secrets_file parameter to GmailClient() " ++
  "2. Set KIMI_VAULT_SECRETS environment variable 3. Run within kimi-vault-session"

/-- `GmailClient._resolve_secrets_file` (client.py, lines 74-94).  An
explicit argument must exist or the call raises.  Otherwise
`env_path = environ.get("KIMI_VAULT_SECRETS") or environ.get("KIMI_BOT_SECRETS")`
(Python `or`: the first non-empty value wins), and only when that one
value names an existing file does resolution succeed. -/
def resolveSecretsFile (explicitPath : Option String) (env : SecretsEnv) :
    Except String String :=
  match explicitPath with
  | some p =>
    if env.existing.contains p then .ok p
    else .error ("Secrets file not found: " ++ p)
  | none =>
    let envPath :=
      match env.kimiVaultSecrets with
      | some s => if s != "" then some s else env.kimiBotSecrets
      | none => env.kimiBotSecrets
    match envPath with
    | some p =>
      if p != "" then
        if env.existing.contains p then .ok p else .error noSecretsFileMsg
      else .error noSecretsFileMsg
    | none => .error noSecretsFileMsg

/-! ## VaultCrypto.generate_key (src/src/kimi_vault/crypto.py, lines 37-72) -/

/-- The files `generate_key` touches: whether the private-key file
exists and with which permission bits, and the content of the derived
public-key file. -/
structure CryptoFs where
  keyFileExists : Bool
  keyFileMode : Option Nat
  pubFileContent : Option String
deriving DecidableEq, Repr

/-- Outcome oracle for the `age-keygen -o <key_file>` subprocess: its
stderr text on exit 0, or its stderr on a non-zero exit
(`CalledProcessError`). -/
inductive KeygenOutcome
  | ok (stderr : String)
  | fail (stderr : String)
deriving DecidableEq, Repr

/-- The tag the stderr parser looks for. -/
def pubKeyTag : List Char := "# public key:".toList

/-- The parsing loop of `generate_key`: the first stderr line starting
with `# public key:`, split on `:`, segment 1, stripped. -/
def findPubKeyLine : List (List Char) → Option (List Char)
  | [] => none
  | l :: rest =>
    if charsStartWith pubKeyTag l then
      some (stripChars ((splitOnChar ':' l).getD 1 []))
    else findPubKeyLine rest

/-- The public key extracted from `age-keygen` stderr, if any. -/
def parsePublicKey (stderr : String) : Option String :=
  (findPubKeyLine (splitLinesChars stderr.toList)).map String.mk

/-- Result of running `generate_key`: the raised-or-returned value
(the returned public key is `Option`al because the parse can miss), the
final file state, and the number of `age-keygen` invocations. -/
structure GenResult where
  result : Except String (Option String)
  fs : CryptoFs
  keygenCalls : Nat
deriving Repr

/-- The refuse-to-overwrite message of `generate_key`. -/
def keyExistsMsg (keyPath : String) : String :=
  "Key file already exists: " ++ keyPath ++
  " Delete it first if you want to generate a new key."

/-- `VaultCrypto.generate_key` (crypto.py, lines 37-72).  `age` is the
outcome of `_check_age_installed`; `defaultMode` is whatever permission
bits `age-keygen` gives a fresh key file before the explicit
`os.chmod(key_file, 0o600)`.  When the key file already exists the
call raises before invoking `age-keygen`; on a successful generation
the `.pub` file is written when a public key was parsed, and the key
file ends up with mode `0o600`. -/
def generateKey (fs : CryptoFs) (age : Bool) (kg : KeygenOutcome)
    (defaultMode : Nat) (keyPath : String) : GenResult :=
  if !age then
    ⟨.error "age is not installed. Install it from https://age-encryption.org", fs, 0⟩
  else if fs.keyFileExists then
    ⟨.error (keyExistsMsg keyPath), fs, 0⟩
  else
    match kg with
    | .fail stderr =>
      ⟨.error ("Failed to generate key: " ++ stderr), fs, 1⟩
    | .ok stderr =>
      let fs1 := { fs with keyFileExists := true, keyFileMode := some defaultMode }
      let pk := parsePublicKey stderr
      let fs2 :=
        match pk with
        | some k => { fs1 with pubFileContent := some (k ++ "\n") }
        | none => fs1
      ⟨.ok pk, { fs2 with keyFileMode := some 0o600 }, 1⟩

/-! ## Theorems -/

/-- With credentials held, `_refresh_token` performs exactly one
`creds.refresh` network call. -/
theorem refreshToken_calls (st : GuardState) (c : Creds) (o : RefreshOutcome)
    (hc : st.creds = some c) : (refreshToken st o).calls = 1 := by
  cases o <;> simp only [refreshToken, hc]
  split <;> rfl

/-- `_refresh_token` performs at most one `creds.refresh` call. -/
theorem refreshToken_calls_le_one (st : GuardState) (o : RefreshOutcome) :
    (refreshToken st o).calls ≤ 1 := by
  cases hst : st.creds with
  | none => cases o <;> simp [refreshToken, hst]
  | some c => exact Nat.le_of_eq (refreshToken_calls st c o hst)

/-- Claim C8: `is_wsl2` returns `true` exactly when at least one host
signal matches — the `/proc/version` content contains `microsoft`
(case-insensitively), the `uname -r` output contains it, or
`WSL_DISTRO_NAME` is set to a nonempty value — and returns `false` only
when every checked signal is absent or inconclusive.  The embedding is
a pure function of these three host signals, so no network or
hardware-device access is involved. -/
theorem is_wsl2_any_signal (h : HostSignals) :
    is_wsl2 h = true ↔
      ((∃ c, h.procVersion = some c ∧ hasMicrosoft c = true) ∨
       (∃ u, h.unameRelease = some u ∧ hasMicrosoft u = true) ∨
       (∃ s, h.wslDistroName = some s ∧ s ≠ "")) := by
  obtain ⟨p, u, w⟩ := h
  rcases p with _ | c <;> rcases u with _ | uu <;> rcases w with _ | s <;>
    simp [is_wsl2, bne_iff_ne]

/-- Claim C2: with a credential held, `_ensure_valid_token` performs no
refresh call when the credential is valid and its expiry lies more than
300 seconds in the future, and performs exactly one refresh call when
the credential is marked invalid, when the expiry is absent (treated as
zero seconds remaining), or when fewer than 300 seconds remain — which
includes every expiry in the past. -/
theorem ensureValidToken_refresh_policy (st : GuardState) (c : Creds)
    (now : Int) (o : RefreshOutcome) (hc : st.creds = some c) :
    ((c.valid = true ∧ ∃ t, c.expiry = some t ∧ 300 < t - now) →
      (ensureValidToken st now o).calls = 0) ∧
    ((c.valid = false ∨ c.expiry = none ∨ (∃ t, c.expiry = some t ∧ t - now < 300)) →
      (ensureValidToken st now o).calls = 1) := by
  have hone : (refreshToken st o).calls = 1 := refreshToken_calls st c o hc
  constructor
  · rintro ⟨hv, t, ht, hgt⟩
    have hnot : ¬ (t - now < 300) := by omega
    simp [ensureValidToken, hc, ht, hv, hnot]
  · intro htrig
    have hcond : (!c.valid || (match c.expiry with
        | some t => t - now
        | none => 0) < 300) = true := by
      rcases htrig with hv | he | ⟨t, ht, hlt⟩
      · simp [hv]
      · simp [he]
      · simp [ht, hlt]
    simp only [ensureValidToken, hc]
    rw [if_pos hcond]
    cases hres : (refreshToken st o).result <;> simp [hres, hone]

/-- Witness for Claim C2: a valid token with 1000 seconds remaining is
not refreshed; a valid token with 200 seconds remaining is refreshed
exactly once. -/
theorem ensureValidToken_refresh_policy_witness :
    (ensureValidToken ⟨some ⟨true, some 1000⟩, none⟩ 0 .ok).calls = 0 ∧
    (ensureValidToken ⟨some ⟨true, some 200⟩, none⟩ 0 .ok).calls = 1 :=
  ⟨(ensureValidToken_refresh_policy _ ⟨true, some 1000⟩ 0 .ok rfl).1
      ⟨rfl, 1000, rfl, by decide⟩,
   (ensureValidToken_refresh_policy _ ⟨true, some 200⟩ 0 .ok rfl).2
      (Or.inr (Or.inr ⟨200, rfl, by decide⟩))⟩

/-- Claim C3: a refresh failure whose signal contains `invalid_grant`
makes `_refresh_token` raise a `GmailAuthError` identifying the refresh
token as revoked/expired; any refresh failure surfaced through the
guard (`_ensure_valid_token`) is raised as `GmailAuthError` with the
reason recorded in the sticky `_auth_error`; and a successful refresh
clears the sticky reason. -/
theorem refresh_failure_taxonomy (st : GuardState) (c : Creds) (now : Int)
    (msg : String) (hc : st.creds = some c) (hv : c.valid = false) :
    (containsSubstr msg "invalid_grant" = true →
      (refreshToken st (.err msg)).result = .error (.gmailAuth revokedMsg)) ∧
    (∃ r, (ensureValidToken st now (.err msg)).result = .error (.gmailAuth r) ∧
      (ensureValidToken st now (.err msg)).state.authError = some r) ∧
    (refreshToken st .ok).state.authError = none := by
  refine ⟨fun hig => by simp [refreshToken, hc, hig], ?_, by simp [refreshToken, hc]⟩
  simp only [ensureValidToken, hc, hv]
  cases hig : containsSubstr msg "invalid_grant" <;>
    simp [refreshToken, hc, hig, excMsg]

/-- Witness for Claim C3: an `invalid_grant` failure yields the
revocation `GmailAuthError`; a plain timeout surfaced through
`_ensure_valid_token` is recorded verbatim in `_auth_error`; a
successful refresh clears it. -/
theorem refresh_failure_taxonomy_witness :
    (refreshToken ⟨some ⟨false, some 0⟩, some "old"⟩ (.err "got invalid_grant back")).result
      = .error (.gmailAuth revokedMsg) ∧
    (refreshToken ⟨some ⟨false, some 0⟩, some "old"⟩ .ok).state.authError = none :=
  ⟨(refresh_failure_taxonomy _ ⟨false, some 0⟩ 0 "got invalid_grant back" rfl rfl).1 (by decide),
   (refresh_failure_taxonomy _ ⟨false, some 0⟩ 0 "got invalid_grant back" rfl rfl).2.2⟩

/-- The guard state used to exercise `_execute_with_retry` on concrete
inputs: credentials are held and no sticky error is recorded. -/
def cexGuard : GuardState :=
  { creds := some { valid := true, expiry := some 0 }, authError := none }

/-- Counterexample to Claim C1 as stated: after a first 401 and a
successful forced refresh, a second attempt that fails with another 401
`HttpError` makes `_execute_with_retry` re-raise that exception — the
inner handler only catches `GmailAuthError` — instead of returning the
absence signal `None`. -/
theorem executeWithRetry_raises_on_second_failure :
    (executeWithRetry cexGuard (.raises (.http 401)) (.raises (.http 401)) .ok).result
      = .error (.http 401) := rfl

/-- Claim C1 (amended): one outer `_execute_with_retry` call invokes the
wrapped operation at most twice and performs at most one refresh call,
regardless of how many consecutive authorization failures the operation
reports; when the forced refresh fails with a `GmailAuthError` (the
revoked-token case, or no credentials held), or the second attempt
raises a `GmailAuthError`, the call returns the absence signal `None`;
any other failure of the forced refresh or of the second attempt
propagates as a raised exception. -/
theorem executeWithRetry_bounds_and_absence (st : GuardState)
    (first second : CallOutcome) (o : RefreshOutcome) :
    ((executeWithRetry st first second o).apiCalls ≤ 2 ∧
     (executeWithRetry st first second o).refreshCalls ≤ 1) ∧
    (∀ m, first = .raises (.http 401) →
      (refreshToken st o).result = .error (.gmailAuth m) →
      (executeWithRetry st first second o).result = .ok none) ∧
    (∀ m, first = .raises (.http 401) →
      (refreshToken st o).result = .ok () →
      second = .raises (.gmailAuth m) →
      (executeWithRetry st first second o).result = .ok none) ∧
    (∀ e, first = .raises (.http 401) →
      (refreshToken st o).result = .error e → (∀ m, e ≠ .gmailAuth m) →
      (executeWithRetry st first second o).result = .error e) ∧
    (∀ e, first = .raises (.http 401) →
      (refreshToken st o).result = .ok () →
      second = .raises e → (∀ m, e ≠ .gmailAuth m) →
      (executeWithRetry st first second o).result = .error e) := by
  have hr := refreshToken_calls_le_one st o
  refine ⟨?_, ?_, ?_, ?_, ?_⟩
  · rcases first with v | e
    · simp [executeWithRetry]
    · rcases e with m | s | m
      · simp [executeWithRetry, handleApiError]
      · by_cases hs : s = 401
        · subst hs
          simp only [executeWithRetry, if_pos rfl]
          cases hres : (refreshToken st o).result with
          | ok _ =>
            rcases second with v | e2
            · simpa [hres] using hr
            · rcases e2 with m2 | s2 | m2 <;> simpa [hres] using hr
          | error e =>
            rcases e with m2 | s2 | m2 <;> simpa [hres] using hr
        · simp [executeWithRetry, hs, handleApiError]
      · simp [executeWithRetry, handleApiError]
  · rintro m rfl hres
    simp [executeWithRetry, hres]
  · rintro m rfl hres rfl
    simp [executeWithRetry, hres]
  · rintro e rfl hres hne
    rcases e with m | s | m
    · exact absurd rfl (hne m)
    · simp [executeWithRetry, hres]
    · simp [executeWithRetry, hres]
  · rintro e rfl hres rfl hne
    rcases e with m | s | m
    · exact absurd rfl (hne m)
    · simp [executeWithRetry, hres]
    · simp [executeWithRetry, hres]

/-- Witness for Claim C1: a 401 followed by a forced refresh that fails
with `invalid_grant` returns `None`; the call-count bound holds on the
same input. -/
theorem executeWithRetry_bounds_and_absence_witness :
    (executeWithRetry cexGuard (.raises (.http 401)) (.ok 7)
        (.err "oauth: invalid_grant")).result = .ok none ∧
    (executeWithRetry cexGuard (.raises (.http 401)) (.ok 7)
        (.err "oauth: invalid_grant")).apiCalls ≤ 2 :=
  ⟨(executeWithRetry_bounds_and_absence cexGuard _ (.ok 7)
      (.err "oauth: invalid_grant")).2.1 revokedMsg rfl rfl,
   (executeWithRetry_bounds_and_absence cexGuard (.raises (.http 401)) (.ok 7)
      (.err "oauth: invalid_grant")).1.1⟩

/-- Claim C4: whenever `decrypt_age_key` writes its transient identity
file (the plugin is installed and the identity lookup succeeded), the
file is gone from the file system on every exit path — success of the
decrypt tool, a non-zero exit of the decrypt tool, and any unexpected
exception raised after the file was created. -/
theorem decryptAgeKey_deletes_identity_file (fs : FsState) (plugin : Bool)
    (ido : IdentityOutcome) (tmp : String) (dec : DecryptOutcome)
    (ident : String) (hp : plugin = true) (hi : ido = .ok ident) :
    tmp ∉ (decryptAgeKey fs plugin ido tmp dec).2.files := by
  subst hp hi
  cases dec <;>
    simp [decryptAgeKey, createFile, unlinkFile, List.mem_filter]

/-- Witness for Claim C4: a failing decrypt tool still leaves the file
system without the transient identity file. -/
theorem decryptAgeKey_deletes_identity_file_witness :
    "/tmp/tmpx1.age" ∉
      (decryptAgeKey ⟨["/vault/key.age"]⟩ true (.ok "AGE-PLUGIN-YUBIKEY-IDENTITY")
        "/tmp/tmpx1.age" (.fail "wrong PIN")).2.files :=
  decryptAgeKey_deletes_identity_file _ _ _ _ _ "AGE-PLUGIN-YUBIKEY-IDENTITY" rfl rfl

/-- Claim C5: starting from a fresh manager in a CompatibilityLayer
(WSL2) environment, when `ykman` is on the path, its `info` probe fails
with the transport-unavailable signature in stderr, and the
compatibility-build version probe succeeds, `_check_yubikey_present`
returns `true`; in the same situation with both compatibility-build
probes failing it returns `false`. -/
theorem detection_ladder_wsl2 (w : ProbeWorld) (stderr : String)
    (hw : is_wsl2 w.host = true)
    (hyk : w.ykmanOnPath = true)
    (hinfo : w.ykmanInfo = .error stderr)
    (hsig : pcscSignature stderr = true) :
    (checkYubikeyPresentWsl2 w = true → (checkYubikeyPresent freshMgr w).1 = true) ∧
    (w.exeVersionOk = false → w.linuxVersionOk = false →
      (checkYubikeyPresent freshMgr w).1 = false) := by
  constructor
  · intro hprobe
    simp [checkYubikeyPresent, freshMgr, checkYkmanInstalled, hyk, hinfo, hw,
      hsig, hprobe]
  · intro hexe hlin
    simp [checkYubikeyPresent, freshMgr, checkYkmanInstalled, hyk, hinfo, hw,
      hsig, checkYubikeyPresentWsl2, hexe, hlin]

/-- WSL2 probe world with the `.exe` compatibility probe succeeding. -/
def wslWorldUp : ProbeWorld :=
  ⟨⟨none, none, some "Ubuntu"⟩, true, .error "PC/SC not available", true, false⟩

/-- WSL2 probe world with both compatibility probes failing. -/
def wslWorldDown : ProbeWorld :=
  ⟨⟨none, none, some "Ubuntu"⟩, true, .error "PC/SC not available", false, false⟩

/-- Witness for Claim C5: with the signature in stderr, a succeeding
`.exe` probe yields presence and two failing probes yield absence. -/
theorem detection_ladder_wsl2_witness :
    (checkYubikeyPresent freshMgr wslWorldUp).1 = true ∧
    (checkYubikeyPresent freshMgr wslWorldDown).1 = false :=
  ⟨(detection_ladder_wsl2 wslWorldUp "PC/SC not available" rfl rfl rfl rfl).1 rfl,
   (detection_ladder_wsl2 wslWorldDown "PC/SC not available" rfl rfl rfl rfl).2 rfl rfl⟩

/-- First-call probe world for the Claim C6 counterexample: WSL2,
`ykman info` failing with the transport-unavailable signature, both
compatibility probes failing. -/
def probeAllFail : ProbeWorld :=
  ⟨⟨none, none, some "Ubuntu"⟩, true, .error "PC/SC not available", false, false⟩

/-- Second-call probe world: identical except that the `.exe`
compatibility probe now succeeds. -/
def probeExeOk : ProbeWorld :=
  ⟨⟨none, none, some "Ubuntu"⟩, true, .error "PC/SC not available", true, false⟩

/-- Counterexample to Claim C6 as stated: after a first call observes a
failure due to missing native access inside WSL2, the `false` answer is
cached — a second call in a world where the secondary strategy would
now succeed still returns `false`, while a fresh manager in that world
returns `true`.  Detection is therefore memoized, not re-run. -/
theorem devicePresent_not_rerun_after_failure :
    (checkYubikeyPresent freshMgr probeAllFail).1 = false ∧
    (checkYubikeyPresent (checkYubikeyPresent freshMgr probeAllFail).2 probeExeOk).1 = false ∧
    (checkYubikeyPresent freshMgr probeExeOk).1 = true :=
  ⟨rfl, rfl, rfl⟩

/-- Claim C6 (amended): `_check_yubikey_present` memoizes its result on
every path, including a failure observed inside a CompatibilityLayer
environment: each uncached call stores its answer in
`self._yubikey_present`, and any later call returns the cached value
unchanged without re-running the detection (the secondary strategy is
consulted within the same failing call, before the result is
cached). -/
theorem devicePresent_memoization (st : MgrState) (w : ProbeWorld) :
    (checkYubikeyPresent st w).2.yubikeyPresent = some (checkYubikeyPresent st w).1 ∧
    (∀ b, st.yubikeyPresent = some b →
      (checkYubikeyPresent st w).1 = b ∧ (checkYubikeyPresent st w).2 = st) := by
  constructor
  · cases hst : st.yubikeyPresent with
    | some b => simp [checkYubikeyPresent, hst]
    | none =>
      simp only [checkYubikeyPresent, hst, checkYkmanInstalled]
      split <;> split <;> first
        | rfl
        | (split <;> first
            | rfl
            | (split <;> rfl))
  · intro b hst
    simp [checkYubikeyPresent, hst]

/-- Witness for Claim C6: a manager whose cache already holds `false`
answers `false` and keeps its state, whatever the new probe world
offers. -/
theorem devicePresent_memoization_witness :
    (checkYubikeyPresent ⟨some true, some false⟩ probeExeOk).1 = false :=
  ((devicePresent_memoization ⟨some true, some false⟩ probeExeOk).2 false rfl).1

/-- Run oracle for the Claim C7 counterexample: the `.exe` build is
found but exits non-zero with a substantive failure; the Linux build
succeeds and prints a recipient line. -/
def wsl2FailoverRun : PluginBin → RunOutcome
  | .exeBin => .callFailed "ERROR: PCSC unavailable"
  | .linuxBin => .ok "age1yubikey1q2w3e\n"

/-- Counterexample to Claim C7 as stated: in WSL2 the recipient lookup
does fall back to the second build after the first build ran and failed
for a substantive reason (`CalledProcessError`), returning the fallback
recipient instead of raising — even though this operation is not the
device-presence ladder. -/
theorem recipient_falls_back_after_substantive_failure :
    getYubikeyRecipient true wsl2FailoverRun = .ok "age1yubikey1q2w3e" := rfl

/-- Claim C7 (amended): for both dual-executable operations — the
recipient lookup and the identity lookup — the build matching the
detected environment is attempted first (`pluginOrder`); outside a
CompatibilityLayer environment the other build is attempted only when
the first is not found on the search path, and a substantive failure of
a found executable raises immediately; inside a CompatibilityLayer
environment, however, a substantive failure also falls through to the
next candidate — not only in the device-presence ladder — and both
operations raise only after every candidate has failed (with the last
substantive stderr, or the not-installed message when no candidate was
found). -/
theorem dual_executable_tie_break (run : PluginBin → RunOutcome) :
    (pluginOrder false = [.linuxBin, .exeBin] ∧
     pluginOrder true = [.exeBin, .linuxBin]) ∧
    (∀ stderr, run .linuxBin = .callFailed stderr →
      getYubikeyRecipient false run =
        .error (.yubikey ("Failed to get recipient with age-plugin-yubikey: " ++ stderr)) ∧
      getYubikeyIdentity false run =
        .error (.yubikey ("Failed to get identity with age-plugin-yubikey: " ++ stderr))) ∧
    (∀ out, run .linuxBin = .notFound → run .exeBin = .ok out →
      (∀ line, findRecipient out = some line →
        getYubikeyRecipient false run = .ok line) ∧
      getYubikeyIdentity false run = .ok (stripString out)) ∧
    (∀ stderr out, run .exeBin = .callFailed stderr → run .linuxBin = .ok out →
      (∀ line, findRecipient out = some line →
        getYubikeyRecipient true run = .ok line) ∧
      getYubikeyIdentity true run = .ok (stripString out)) ∧
    (∀ s1 s2, run .exeBin = .callFailed s1 → run .linuxBin = .callFailed s2 →
      getYubikeyRecipient true run = .error (.yubikey ("Failed to get recipient: " ++ s2)) ∧
      getYubikeyIdentity true run = .error (.yubikey ("Failed to get identity: " ++ s2))) ∧
    (run .linuxBin = .notFound → run .exeBin = .notFound →
      getYubikeyRecipient false run = .error (.yubikey pluginMissingMsg) ∧
      getYubikeyIdentity false run = .error (.yubikey pluginMissingMsg) ∧
      getYubikeyRecipient true run = .error (.yubikey pluginMissingMsg) ∧
      getYubikeyIdentity true run = .error (.yubikey pluginMissingMsg)) := by
  refine ⟨⟨rfl, rfl⟩, ?_, ?_, ?_, ?_, ?_⟩
  · intro stderr hlin
    constructor
    · simp [getYubikeyRecipient, pluginOrder, recipientLoop, hlin, binName]
    · simp [getYubikeyIdentity, pluginOrder, identityLoop, hlin, binName]
  · intro out hlin hexe
    constructor
    · intro line hfind
      simp [getYubikeyRecipient, pluginOrder, recipientLoop, hlin, hexe, hfind]
    · simp [getYubikeyIdentity, pluginOrder, identityLoop, hlin, hexe]
  · intro stderr out hexe hlin
    constructor
    · intro line hfind
      simp [getYubikeyRecipient, pluginOrder, recipientLoop, hlin, hexe, hfind]
    · simp [getYubikeyIdentity, pluginOrder, identityLoop, hlin, hexe]
  · intro s1 s2 hexe hlin
    constructor
    · simp [getYubikeyRecipient, pluginOrder, recipientLoop, hlin, hexe]
    · simp [getYubikeyIdentity, pluginOrder, identityLoop, hlin, hexe]
  · intro hlin hexe
    refine ⟨?_, ?_, ?_, ?_⟩
    · simp [getYubikeyRecipient, pluginOrder, recipientLoop, hlin, hexe]
    · simp [getYubikeyIdentity, pluginOrder, identityLoop, hlin, hexe]
    · simp [getYubikeyRecipient, pluginOrder, recipientLoop, hlin, hexe]
    · simp [getYubikeyIdentity, pluginOrder, identityLoop, hlin, hexe]

/-- Run oracle whose every invocation fails substantively. -/
def nativeFailRun : PluginBin → RunOutcome := fun _ => .callFailed "boom"

/-- Witness for Claim C7: outside WSL2 a substantive failure of the
first (native) build raises immediately; inside WSL2 the identity
lookup falls through a substantive `.exe` failure to the succeeding
Linux build. -/
theorem dual_executable_tie_break_witness :
    getYubikeyRecipient false nativeFailRun =
      .error (.yubikey "Failed to get recipient with age-plugin-yubikey: boom") ∧
    getYubikeyIdentity true wsl2FailoverRun = .ok "age1yubikey1q2w3e" :=
  ⟨((dual_executable_tie_break nativeFailRun).2.1 "boom" rfl).1,
   ((dual_executable_tie_break wsl2FailoverRun).2.2.2.1 "ERROR: PCSC unavailable"
      "age1yubikey1q2w3e\n" rfl rfl).2⟩

/-- Environment for the Claim C9 counterexample: the first override
variable points to a missing file while the second points to an
existing one. -/
def shadowedEnv : SecretsEnv :=
  ⟨some "/missing.json", some "/present.json", ["/present.json"]⟩

/-- Counterexample to Claim C9 as stated: although `KIMI_BOT_SECRETS`
points to an existing file, resolution fails, because the set-but-stale
`KIMI_VAULT_SECRETS` wins the `or` and the runner-up is never
consulted. -/
theorem resolveSecretsFile_ignores_second_when_first_set :
    resolveSecretsFile none shadowedEnv = .error noSecretsFileMsg := rfl

/-- Claim C9 (amended): with no explicit path, the secrets file is
resolved from the two override variables with `KIMI_VAULT_SECRETS`
winning whenever it is set and nonempty — resolution then succeeds if
and only if that one value names an existing file, regardless of
`KIMI_BOT_SECRETS`; the second variable is consulted only when the
first is unset or empty, with the same existence requirement. -/
theorem resolveSecretsFile_first_wins (env : SecretsEnv) :
    (∀ a, env.kimiVaultSecrets = some a → a ≠ "" →
      resolveSecretsFile none env =
        (if env.existing.contains a then .ok a else .error noSecretsFileMsg)) ∧
    (∀ b, (env.kimiVaultSecrets = none ∨ env.kimiVaultSecrets = some "") →
      env.kimiBotSecrets = some b → b ≠ "" →
      resolveSecretsFile none env =
        (if env.existing.contains b then .ok b else .error noSecretsFileMsg)) := by
  constructor
  · intro a ha hne
    simp [resolveSecretsFile, ha, bne_iff_ne, hne]
  · intro b hfirst hb hne
    rcases hfirst with h | h <;>
      simp [resolveSecretsFile, h, hb, bne_iff_ne, hne]

/-- Environment where only the first variable names an existing file. -/
def vaultOnlyEnv : SecretsEnv :=
  ⟨some "/present.json", some "/other.json", ["/present.json"]⟩

/-- Witness for Claim C9: a set, nonempty `KIMI_VAULT_SECRETS` naming
an existing file resolves to that file. -/
theorem resolveSecretsFile_first_wins_witness :
    resolveSecretsFile none vaultOnlyEnv = .ok "/present.json" :=
  (resolveSecretsFile_first_wins vaultOnlyEnv).1 "/present.json" rfl (by decide)

/-- Claim C10: when the private-key file already exists, `generate_key`
raises a `VaultCryptoError` without ever invoking `age-keygen` and with
the key file and public-key file left unchanged — and when the age tool
is available the error is the refuse-to-overwrite message; when the key
file does not exist, the tool is available, and `age-keygen` succeeds,
the key file is created and ends up with owner-only `0o600`
permissions. -/
theorem generateKey_no_overwrite_and_permissions (fs : CryptoFs) (age : Bool)
    (kg : KeygenOutcome) (dm : Nat) (kp : String) :
    (fs.keyFileExists = true →
      (∃ m, (generateKey fs age kg dm kp).result = .error m) ∧
      (generateKey fs age kg dm kp).keygenCalls = 0 ∧
      (generateKey fs age kg dm kp).fs = fs) ∧
    (fs.keyFileExists = true → age = true →
      (generateKey fs age kg dm kp).result = .error (keyExistsMsg kp)) ∧
    (∀ s, fs.keyFileExists = false → age = true → kg = .ok s →
      (generateKey fs age kg dm kp).fs.keyFileExists = true ∧
      (generateKey fs age kg dm kp).fs.keyFileMode = some 0o600) := by
  refine ⟨?_, ?_, ?_⟩
  · intro hex
    cases age <;> simp [generateKey, hex]
  · intro hex hage
    simp [generateKey, hex, hage]
  · rintro s hex hage rfl
    subst hage
    cases hpk : parsePublicKey s <;> simp [generateKey, hex, hpk]

/-- Witness for Claim C10: an existing key file is refused with zero
keygen invocations; a fresh key file is generated with mode `0o600`. -/
theorem generateKey_no_overwrite_and_permissions_witness :
    (generateKey ⟨true, some 384, some "age1old\n"⟩ true (.ok "x") 420
        "/keys/age.key").keygenCalls = 0 ∧
    (generateKey ⟨false, none, none⟩ true (.ok "# public key: age1abcd") 420
        "/keys/age.key").fs.keyFileMode = some 0o600 :=
  ⟨((generateKey_no_overwrite_and_permissions ⟨true, some 384, some "age1old\n"⟩
      true (.ok "x") 420 "/keys/age.key").1 rfl).2.1,
   ((generateKey_no_overwrite_and_permissions ⟨false, none, none⟩
      true (.ok "# public key: age1abcd") 420 "/keys/age.key").2.2
      "# public key: age1abcd" rfl rfl rfl).2⟩

end KimiVault
